import Mathlib

/-!
Shallow embedding of `rag_agent.py` (a conversational agent over a company's
purchase/sales store) and theorems checking the specification's claims
against it.  The embedding covers: the data-access layer (parameterized
read operations and their SQL text), the capability registry, the tool
dispatcher `execute_tool`, and the conversation orchestrator loop
`get_ai_response`.

Modelling conventions:
- the relational store is a `Store` value holding the four tables as lists,
  plus a `failing` flag modelling a store-access failure (the exception that
  `execute_query` catches, returning an empty frame);
- numeric column values are rationals (`ℚ`), the exact arithmetic of the
  store's decimal columns;
- dates are ISO `YYYY-MM-DD` strings, on which lexicographic string order
  coincides with chronological order (exactly how the SQL compares them);
- `ILIKE '%v%'` is case-insensitive substring matching, with case folding
  modelled by `Char.toLower` applied to each character;
- fallible code (a raised exception) is modelled with `Except`.
-/

namespace RagAgent

/-- Python truthiness of an optional string argument: `if query:` is false
both for `None` (the parameter default) and for the empty string. -/
def truthy : Option String → Bool
  | none => false
  | some s => decide (s ≠ "")

/-- Presence-conditional predicate: each optional filter contributes a SQL
condition only when the supplied value is truthy (`if query: conditions.append(...)`). -/
def optFilter (o : Option String) (f : String → Bool) : Bool :=
  match o with
  | none => true
  | some s => if s = "" then true else f s

/-- Checks that the first character list is an initial segment of the second. -/
def leadMatch : List Char → List Char → Bool
  | [], _ => true
  | _ :: _, [] => false
  | a :: as, b :: bs => a == b && leadMatch as bs

/-- Checks that `pat` occurs as a contiguous sublist of the second argument. -/
def subMatch (pat : List Char) : List Char → Bool
  | [] => leadMatch pat []
  | b :: bs => leadMatch pat (b :: bs) || subMatch pat bs

/-- Case folding of a text value, character by character. -/
def lowerStr (s : String) : List Char :=
  s.data.map Char.toLower

/-- Embedding of `col ILIKE %s` with parameter `'%' ++ v ++ '%'`:
case-insensitive substring match of `pat` inside `hay`. -/
def ilike (hay pat : String) : Bool :=
  subMatch (lowerStr pat) (lowerStr hay)

/-- Lexicographic order on character lists: the comparison the store applies
to ISO `YYYY-MM-DD` date strings, where it coincides with chronological
order, and to names. -/
def lexLe : List Char → List Char → Bool
  | [], _ => true
  | _ :: _, [] => false
  | a :: as, b :: bs => if a = b then lexLe as bs else decide (a < b)

/-- The store's `<=` on two date (or name) strings. -/
def strLe (a b : String) : Bool :=
  lexLe a.data b.data

/-- `LIMIT n` applied to a result list.  A negative limit is a store error;
`execute_query` catches it and yields the empty frame. -/
def takeLimit {α : Type} (limit : Int) (l : List α) : List α :=
  if limit < 0 then [] else l.take limit.toNat

/-- Descending order on a sort key, the relation behind `ORDER BY key DESC`. -/
def ordDesc {α β : Type} [LinearOrder β] (key : α → β) (a b : α) : Prop :=
  key b ≤ key a

/-- Ascending order on a sort key, the relation behind `ORDER BY key`. -/
def ordAsc {α β : Type} [LinearOrder β] (key : α → β) (a b : α) : Prop :=
  key a ≤ key b

instance {α β : Type} [LinearOrder β] (key : α → β) : DecidableRel (ordDesc key) :=
  fun a b => inferInstanceAs (Decidable (key b ≤ key a))

instance {α β : Type} [LinearOrder β] (key : α → β) : DecidableRel (ordAsc key) :=
  fun a b => inferInstanceAs (Decidable (key a ≤ key b))

instance {α β : Type} [LinearOrder β] (key : α → β) : IsTotal α (ordDesc key) :=
  ⟨fun a b => le_total (key b) (key a)⟩

instance {α β : Type} [LinearOrder β] (key : α → β) : IsTotal α (ordAsc key) :=
  ⟨fun a b => le_total (key a) (key b)⟩

instance {α β : Type} [LinearOrder β] (key : α → β) : IsTrans α (ordDesc key) :=
  ⟨fun _ _ _ h1 h2 => le_trans h2 h1⟩

instance {α β : Type} [LinearOrder β] (key : α → β) : IsTrans α (ordAsc key) :=
  ⟨fun _ _ _ h1 h2 => le_trans h1 h2⟩

/-- The lexicographic comparison is total. -/
lemma lexLe_total : ∀ l m : List Char, lexLe l m = true ∨ lexLe m l = true := by
  intro l
  induction l with
  | nil => intro m; exact Or.inl rfl
  | cons a as ih =>
    intro m
    cases m with
    | nil => exact Or.inr rfl
    | cons b bs =>
      by_cases hab : a = b
      · subst hab
        simpa [lexLe] using ih bs
      · have hba : ¬ b = a := fun e => hab e.symm
        simp only [lexLe, if_neg hab, if_neg hba, decide_eq_true_eq]
        exact lt_or_gt_of_ne hab

/-- The lexicographic comparison is transitive. -/
lemma lexLe_trans : ∀ l m n : List Char,
    lexLe l m = true → lexLe m n = true → lexLe l n = true := by
  intro l
  induction l with
  | nil => intro m n _ _; rfl
  | cons a as ih =>
    intro m n h1 h2
    cases m with
    | nil => simp [lexLe] at h1
    | cons b bs =>
      cases n with
      | nil => simp [lexLe] at h2
      | cons c cs =>
        by_cases hab : a = b
        · subst hab
          simp only [lexLe, if_pos rfl] at h1
          by_cases hac : a = c
          · subst hac
            simp only [lexLe, if_pos rfl] at h2 ⊢
            exact ih bs cs h1 h2
          · simp only [lexLe, if_neg hac] at h2 ⊢
            exact h2
        · simp only [lexLe, if_neg hab, decide_eq_true_eq] at h1
          by_cases hbc : b = c
          · subst hbc
            have hac : ¬ a = b := hab
            simp only [lexLe, if_neg hac, decide_eq_true_eq]
            exact h1
          · simp only [lexLe, if_neg hbc, decide_eq_true_eq] at h2
            have hac : ¬ a = c := fun e => absurd (e ▸ h1) (not_lt_of_gt h2)
            simp only [lexLe, if_neg hac, decide_eq_true_eq]
            exact lt_trans h1 h2

/-- Descending order on a string-valued sort key (`ORDER BY key DESC`). -/
def strOrdDesc {α : Type} (key : α → String) (a b : α) : Prop :=
  strLe (key b) (key a) = true

/-- Ascending order on a string-valued sort key (`ORDER BY key`). -/
def strOrdAsc {α : Type} (key : α → String) (a b : α) : Prop :=
  strLe (key a) (key b) = true

instance {α : Type} (key : α → String) : DecidableRel (strOrdDesc key) :=
  fun _ _ => inferInstanceAs (Decidable (_ = true))

instance {α : Type} (key : α → String) : DecidableRel (strOrdAsc key) :=
  fun _ _ => inferInstanceAs (Decidable (_ = true))

instance {α : Type} (key : α → String) : IsTotal α (strOrdDesc key) :=
  ⟨fun a b => lexLe_total (key b).data (key a).data⟩

instance {α : Type} (key : α → String) : IsTotal α (strOrdAsc key) :=
  ⟨fun a b => lexLe_total (key a).data (key b).data⟩

instance {α : Type} (key : α → String) : IsTrans α (strOrdDesc key) :=
  ⟨fun _ _ _ h1 h2 => lexLe_trans _ _ _ h2 h1⟩

instance {α : Type} (key : α → String) : IsTrans α (strOrdAsc key) :=
  ⟨fun _ _ _ h1 h2 => lexLe_trans _ _ _ h1 h2⟩

/-- A row of the `purchase_prices` table. -/
structure PurchaseRow where
  doc_date : String
  doc_number : String
  contractor_name : String
  nomenclature_name : String
  quantity : ℚ
  price : ℚ
  sum_total : ℚ
  deriving DecidableEq

/-- A row of the `sales` table. -/
structure SalesRow where
  doc_type : String
  doc_date : String
  doc_number : String
  client_name : String
  nomenclature_name : String
  quantity : ℚ
  price : ℚ
  sum_with_vat : ℚ
  deriving DecidableEq

/-- A row of the `nomenclature` catalog, with the joined type name. -/
structure NomRow where
  name : String
  article : String
  code : String
  type_name : Option String
  is_folder : Bool
  deriving DecidableEq

/-- A row of the `clients` directory. -/
structure ClientRow where
  name : String
  inn : String
  deriving DecidableEq

/-- The relational store.  `failing` models a store-access failure: every
query raised an exception, which `execute_query` catches. -/
structure Store where
  purchases : List PurchaseRow
  sales : List SalesRow
  nomenclature : List NomRow
  clients : List ClientRow
  failing : Bool
  deriving DecidableEq

/-- Embedding of `execute_query`: runs the query against the store, and on a
store-access failure catches the exception and returns the empty frame. -/
def runQuery {ρ : Type} (st : Store) (f : Store → List ρ) : List ρ :=
  if st.failing then [] else f st

/-! ### SQL text and parameter lists (the `sql` f-strings of the source) -/

/-- The `conditions` list built by `search_purchases`. -/
def purchaseConds (query supplier date_from date_to : Option String) : List String :=
  ["1=1"]
    ++ (if truthy query then ["(nomenclature_name ILIKE %s OR contractor_name ILIKE %s)"] else [])
    ++ (if truthy supplier then ["contractor_name ILIKE %s"] else [])
    ++ (if truthy date_from then ["doc_date >= %s"] else [])
    ++ (if truthy date_to then ["doc_date <= %s"] else [])

/-- The `params` list built by `search_purchases`, in order. -/
def purchaseParams (query supplier date_from date_to : Option String) : List String :=
  (if truthy query then ["%" ++ query.getD "" ++ "%", "%" ++ query.getD "" ++ "%"] else [])
    ++ (if truthy supplier then ["%" ++ supplier.getD "" ++ "%"] else [])
    ++ (if truthy date_from then [date_from.getD ""] else [])
    ++ (if truthy date_to then [date_to.getD ""] else [])

/-- The SQL text of `search_purchases` (whitespace normalized).  Note that the
`limit` value is interpolated straight into the text by the source's f-string. -/
def searchPurchasesSql (query supplier date_from date_to : Option String) (limit : Int) : String :=
  "SELECT doc_date, doc_number, contractor_name, nomenclature_name, quantity, price, sum_total "
    ++ "FROM purchase_prices WHERE "
    ++ String.intercalate " AND " (purchaseConds query supplier date_from date_to)
    ++ " ORDER BY doc_date DESC LIMIT " ++ toString limit

/-- The `conditions` list built by `search_sales`. -/
def salesConds (query client doc_type date_from date_to : Option String) : List String :=
  ["1=1"]
    ++ (if truthy query then ["(nomenclature_name ILIKE %s OR client_name ILIKE %s)"] else [])
    ++ (if truthy client then ["client_name ILIKE %s"] else [])
    ++ (if truthy doc_type then ["doc_type = %s"] else [])
    ++ (if truthy date_from then ["doc_date >= %s"] else [])
    ++ (if truthy date_to then ["doc_date <= %s"] else [])

/-- The `params` list built by `search_sales`, in order. -/
def salesParams (query client doc_type date_from date_to : Option String) : List String :=
  (if truthy query then ["%" ++ query.getD "" ++ "%", "%" ++ query.getD "" ++ "%"] else [])
    ++ (if truthy client then ["%" ++ client.getD "" ++ "%"] else [])
    ++ (if truthy doc_type then [doc_type.getD ""] else [])
    ++ (if truthy date_from then [date_from.getD ""] else [])
    ++ (if truthy date_to then [date_to.getD ""] else [])

/-- The SQL text of `search_sales` (whitespace normalized); the `limit` value
is interpolated straight into the text. -/
def searchSalesSql (query client doc_type date_from date_to : Option String)
    (limit : Int) : String :=
  "SELECT doc_type, doc_date, doc_number, client_name, nomenclature_name, quantity, price, sum_with_vat "
    ++ "FROM sales WHERE "
    ++ String.intercalate " AND " (salesConds query client doc_type date_from date_to)
    ++ " ORDER BY doc_date DESC LIMIT " ++ toString limit

/-! ### Row predicates (the semantics of the generated `WHERE` clauses) -/

/-- The `WHERE` predicate of `search_purchases`. -/
def purchaseMatches (query supplier date_from date_to : Option String)
    (r : PurchaseRow) : Bool :=
  optFilter query (fun s => ilike r.nomenclature_name s || ilike r.contractor_name s)
    && optFilter supplier (fun s => ilike r.contractor_name s)
    && optFilter date_from (fun d => strLe d r.doc_date)
    && optFilter date_to (fun d => strLe r.doc_date d)

/-- The `WHERE` predicate of `search_sales`. -/
def salesMatches (query client doc_type date_from date_to : Option String)
    (r : SalesRow) : Bool :=
  optFilter query (fun s => ilike r.nomenclature_name s || ilike r.client_name s)
    && optFilter client (fun s => ilike r.client_name s)
    && optFilter doc_type (fun s => decide (r.doc_type = s))
    && optFilter date_from (fun d => strLe d r.doc_date)
    && optFilter date_to (fun d => strLe r.doc_date d)

/-- The `WHERE` predicate shared by `get_top_clients` and `get_top_products`:
realization documents inside the (optional, inclusive) date range. -/
def topFilter (date_from date_to : Option String) (r : SalesRow) : Bool :=
  decide (r.doc_type = "Реализация")
    && optFilter date_from (fun d => strLe d r.doc_date)
    && optFilter date_to (fun d => strLe r.doc_date d)

/-! ### Result envelopes -/

/-- The `stats` block of `search_purchases` (aggregates over the same filtered
predicate, without the `LIMIT`). -/
structure PurchasesStats where
  total_records : Nat
  suppliers : Nat
  products : Nat
  total_sum : ℚ
  min_date : Option String
  max_date : Option String
  deriving DecidableEq

/-- The result envelope of `search_purchases`. -/
structure PurchasesResult where
  type : String
  data : List PurchaseRow
  stats : Option PurchasesStats
  query_used : String
  deriving DecidableEq

/-- The `stats` block of `search_sales`. -/
structure SalesStats where
  total_records : Nat
  clients : Nat
  sales_sum : ℚ
  corrections_sum : ℚ
  deriving DecidableEq

/-- The result envelope of `search_sales`. -/
structure SalesResult where
  type : String
  data : List SalesRow
  stats : Option SalesStats
  deriving DecidableEq

/-- The result envelope of `search_nomenclature`. -/
structure NomResult where
  type : String
  data : List NomRow
  total_found : Nat
  deriving DecidableEq

/-- The result envelope of `search_clients`. -/
structure ClientsResult where
  type : String
  data : List ClientRow
  total_found : Nat
  deriving DecidableEq

/-- A projected row of the price-dynamics query
(`SELECT doc_date, contractor_name, price, quantity`). -/
structure PriceRow where
  doc_date : String
  contractor_name : String
  price : ℚ
  quantity : ℚ
  deriving DecidableEq

/-- The statistics block of `get_price_dynamics`. -/
structure PriceStats where
  min_price : ℚ
  max_price : ℚ
  avg_price : ℚ
  first_price : ℚ
  last_price : ℚ
  price_change_pct : ℚ
  deriving DecidableEq

/-- The result envelope of `get_price_dynamics`. -/
structure PriceDynResult where
  type : String
  nomenclature : Option String
  data : List PriceRow
  message : Option String
  stats : Option PriceStats
  deriving DecidableEq

/-- A leaderboard row of `get_top_clients`. -/
structure TopClientRow where
  client_name : String
  total_sum : ℚ
  orders_count : Nat
  deriving DecidableEq

/-- The result envelope of `get_top_clients`. -/
structure TopClientsResult where
  type : String
  data : List TopClientRow
  deriving DecidableEq

/-- A leaderboard row of `get_top_products`. -/
structure TopProductRow where
  nomenclature_name : String
  total_qty : ℚ
  total_sum : ℚ
  deriving DecidableEq

/-- The result envelope of `get_top_products`. -/
structure TopProductsResult where
  type : String
  data : List TopProductRow
  deriving DecidableEq

/-- The result envelope of `get_summary_stats` (nested dicts flattened). -/
structure SummaryResult where
  purchases_records : Nat
  purchases_total_sum : ℚ
  purchases_period : String
  sales_records : Nat
  sales_sum : ℚ
  corrections_sum : ℚ
  sales_period : String
  nomenclature_count : Nat
  clients_count : Nat
  deriving DecidableEq

/-! ### Data access operations -/

/-- Aggregates of the purchases stats query over the filtered rows. -/
def purchaseStatsOf (rows : List PurchaseRow) : PurchasesStats :=
  ⟨rows.length,
   (rows.map PurchaseRow.contractor_name).dedup.length,
   (rows.map PurchaseRow.nomenclature_name).dedup.length,
   (rows.map PurchaseRow.sum_total).sum,
   (rows.map PurchaseRow.doc_date).min?,
   (rows.map PurchaseRow.doc_date).max?⟩

/-- Embedding of `search_purchases`. -/
def search_purchases (st : Store) (query supplier date_from date_to : Option String)
    (limit : Int) : PurchasesResult :=
  let data := runQuery st (fun s =>
    takeLimit limit (List.insertionSort (strOrdDesc PurchaseRow.doc_date)
      (s.purchases.filter (purchaseMatches query supplier date_from date_to))))
  let statsRows := runQuery st (fun s =>
    [purchaseStatsOf (s.purchases.filter (purchaseMatches query supplier date_from date_to))])
  ⟨"purchases", data, statsRows.head?, searchPurchasesSql query supplier date_from date_to limit⟩

/-- The `CASE WHEN doc_type = t THEN sum_with_vat ELSE 0 END` aggregate. -/
def sumWhenType (t : String) (rows : List SalesRow) : ℚ :=
  (rows.map (fun r => if r.doc_type = t then r.sum_with_vat else 0)).sum

/-- Aggregates of the sales stats query over the filtered rows. -/
def salesStatsOf (rows : List SalesRow) : SalesStats :=
  ⟨rows.length,
   (rows.map SalesRow.client_name).dedup.length,
   sumWhenType "Реализация" rows,
   sumWhenType "Корректировка" rows⟩

/-- Embedding of `search_sales`. -/
def search_sales (st : Store) (query client doc_type date_from date_to : Option String)
    (limit : Int) : SalesResult :=
  let data := runQuery st (fun s =>
    takeLimit limit (List.insertionSort (strOrdDesc SalesRow.doc_date)
      (s.sales.filter (salesMatches query client doc_type date_from date_to))))
  let statsRows := runQuery st (fun s =>
    [salesStatsOf (s.sales.filter (salesMatches query client doc_type date_from date_to))])
  ⟨"sales", data, statsRows.head?⟩

/-- The `WHERE` predicate of `search_nomenclature` (leaf nodes only). -/
def nomMatches (query : Option String) (r : NomRow) : Bool :=
  !r.is_folder && optFilter query (fun s => ilike r.name s || ilike r.article s)

/-- Embedding of `search_nomenclature`. -/
def search_nomenclature (st : Store) (query : Option String) (limit : Int) : NomResult :=
  let data := runQuery st (fun s =>
    takeLimit limit (List.insertionSort (strOrdAsc NomRow.name)
      (s.nomenclature.filter (nomMatches query))))
  ⟨"nomenclature", data, data.length⟩

/-- The `WHERE` predicate of `search_clients`. -/
def clientMatches (query : Option String) (r : ClientRow) : Bool :=
  optFilter query (fun s => ilike r.name s || ilike r.inn s)

/-- Embedding of `search_clients`. -/
def search_clients (st : Store) (query : Option String) (limit : Int) : ClientsResult :=
  let data := runQuery st (fun s =>
    takeLimit limit (List.insertionSort (strOrdAsc ClientRow.name)
      (s.clients.filter (clientMatches query))))
  ⟨"clients", data, data.length⟩

/-- Projection of a purchase row onto the price-dynamics columns. -/
def projPrice (r : PurchaseRow) : PriceRow :=
  ⟨r.doc_date, r.contractor_name, r.price, r.quantity⟩

/-- The frame fetched by `get_price_dynamics`: matching purchase rows in
chronological order (no `LIMIT` clause at all). -/
def priceDynRows (st : Store) (nomenclature : String) : List PriceRow :=
  runQuery st (fun s =>
    (List.insertionSort (strOrdAsc PurchaseRow.doc_date)
      (s.purchases.filter (fun r => ilike r.nomenclature_name nomenclature))).map projPrice)

/-- Minimum of a nonempty column, `df['price'].min()` (the `[]` case is
unreachable in context). -/
def listMin : List ℚ → ℚ
  | [] => 0
  | x :: xs => xs.foldl min x

/-- Maximum of a nonempty column, `df['price'].max()`. -/
def listMax : List ℚ → ℚ
  | [] => 0
  | x :: xs => xs.foldl max x

/-- Python's `round(x, 1)` on exact decimal values: round to one decimal
place, ties to even. -/
def round1 (q : ℚ) : ℚ :=
  let x := q * 10
  let n : Int := ⌊x⌋
  let frac : ℚ := x - n
  let r : Int :=
    if frac < 1 / 2 then n
    else if 1 / 2 < frac then n + 1
    else if n % 2 = 0 then n else n + 1
  (r : ℚ) / 10

/-- Embedding of `get_price_dynamics`.  The source computes
`(last - first) / first` with no guard; a zero first price raises, modelled
as the `Except.error` branch. -/
def get_price_dynamics (st : Store) (nomenclature : String) :
    Except String PriceDynResult :=
  match priceDynRows st nomenclature with
  | [] => .ok ⟨"price_dynamics", none, [], some "Данные не найдены", none⟩
  | first :: rest =>
    if first.price = 0 then .error "DivisionByZero: division by zero"
    else
      let ps := (first :: rest).map PriceRow.price
      let lastRow := rest.getLastD first
      .ok ⟨"price_dynamics", some nomenclature, first :: rest, none,
        some ⟨listMin ps, listMax ps, ps.sum / (ps.length : ℚ),
          first.price, lastRow.price,
          round1 ((lastRow.price - first.price) / first.price * 100)⟩⟩

/-- The rows of `get_top_clients`' grouped query that match the filter. -/
def topMatching (st : Store) (date_from date_to : Option String) : List SalesRow :=
  st.sales.filter (topFilter date_from date_to)

/-- One `GROUP BY client_name` group: monetary total and distinct-document
count for a client name. -/
def clientGroup (matching : List SalesRow) (n : String) : TopClientRow :=
  ⟨n,
   ((matching.filter (fun r => decide (r.client_name = n))).map SalesRow.sum_with_vat).sum,
   ((matching.filter (fun r => decide (r.client_name = n))).map SalesRow.doc_number).dedup.length⟩

/-- Embedding of `get_top_clients`. -/
def get_top_clients (st : Store) (date_from date_to : Option String)
    (limit : Int) : TopClientsResult :=
  ⟨"top_clients",
   runQuery st (fun s =>
     let matching := topMatching s date_from date_to
     takeLimit limit (List.insertionSort (ordDesc TopClientRow.total_sum)
       (((matching.map SalesRow.client_name).dedup).map (clientGroup matching))))⟩

/-- One `GROUP BY nomenclature_name` group: quantity total and monetary total
for a product name. -/
def productGroup (matching : List SalesRow) (n : String) : TopProductRow :=
  ⟨n,
   ((matching.filter (fun r => decide (r.nomenclature_name = n))).map SalesRow.quantity).sum,
   ((matching.filter (fun r => decide (r.nomenclature_name = n))).map SalesRow.sum_with_vat).sum⟩

/-- Embedding of `get_top_products`. -/
def get_top_products (st : Store) (date_from date_to : Option String)
    (limit : Int) : TopProductsResult :=
  ⟨"top_products",
   runQuery st (fun s =>
     let matching := topMatching s date_from date_to
     takeLimit limit (List.insertionSort (ordDesc TopProductRow.total_sum)
       (((matching.map SalesRow.nomenclature_name).dedup).map (productGroup matching))))⟩

/-- Aggregate row of the summary query over `purchase_prices`. -/
structure PAgg where
  cnt : Nat
  total : ℚ
  min_date : Option String
  max_date : Option String
  deriving DecidableEq

/-- Aggregate row of the summary query over `sales`. -/
structure SAgg where
  cnt : Nat
  sales_total : ℚ
  corr_total : ℚ
  min_date : Option String
  max_date : Option String
  deriving DecidableEq

/-- Computes the purchases aggregate row. -/
def pAggOf (rows : List PurchaseRow) : PAgg :=
  ⟨rows.length, (rows.map PurchaseRow.sum_total).sum,
   (rows.map PurchaseRow.doc_date).min?, (rows.map PurchaseRow.doc_date).max?⟩

/-- Computes the sales aggregate row. -/
def sAggOf (rows : List SalesRow) : SAgg :=
  ⟨rows.length, sumWhenType "Реализация" rows, sumWhenType "Корректировка" rows,
   (rows.map SalesRow.doc_date).min?, (rows.map SalesRow.doc_date).max?⟩

/-- Renders Python's f-string interpolation of a possibly-NULL date. -/
def optToPy : Option String → String
  | none => "None"
  | some s => s

/-- The `f"{min_date} — {max_date}"` period string. -/
def periodStr (a b : Option String) : String :=
  optToPy a ++ " — " ++ optToPy b

/-- Embedding of `get_summary_stats`.  Each aggregate query yields exactly one
row; on a store failure `execute_query` yields the empty frame instead, and
the source's `purchases.iloc[0]` then raises IndexError — the error branch. -/
def get_summary_stats (st : Store) : Except String SummaryResult :=
  let pq : List PAgg := runQuery st (fun s => [pAggOf s.purchases])
  let sq : List SAgg := runQuery st (fun s => [sAggOf s.sales])
  let nq : List Nat := runQuery st (fun s => [(s.nomenclature.filter (fun n => !n.is_folder)).length])
  let cq : List Nat := runQuery st (fun s => [s.clients.length])
  match pq, sq, nq, cq with
  | p :: _, s :: _, n :: _, c :: _ =>
      .ok ⟨p.cnt, p.total, periodStr p.min_date p.max_date,
           s.cnt, s.sales_total, s.corr_total, periodStr s.min_date s.max_date,
           n, c⟩
  | _, _, _, _ => .error "IndexError: single positional indexer is out-of-bounds"

/-! ### Serialization (`json.dumps` of the result dicts, compact form) -/

/-- Renders a JSON string literal (escaping elided; no claim depends on it). -/
def jstr (s : String) : String := "\"" ++ s ++ "\""

/-- Renders a rational column value. -/
def jnum (q : ℚ) : String := toString q

/-- Renders one `"key": value` field. -/
def jfield (k v : String) : String := jstr k ++ ": " ++ v

/-- Renders a JSON object from rendered fields. -/
def jobj (fields : List String) : String :=
  "\x7b" ++ String.intercalate ", " fields ++ "\x7d"

/-- Renders a JSON array from rendered elements. -/
def jarr (xs : List String) : String :=
  "[" ++ String.intercalate ", " xs ++ "]"

/-- Renders an optional string (JSON `null` when absent). -/
def jopt : Option String → String
  | none => "null"
  | some s => jstr s

/-- The structured error payload, `json.dumps(\x7b"error": msg\x7d)`. -/
def jsonError (msg : String) : String :=
  jobj [jfield "error" (jstr msg)]

/-- Renders a purchase record. -/
def renderPurchaseRow (r : PurchaseRow) : String :=
  jobj [jfield "doc_date" (jstr r.doc_date), jfield "doc_number" (jstr r.doc_number),
    jfield "contractor_name" (jstr r.contractor_name),
    jfield "nomenclature_name" (jstr r.nomenclature_name),
    jfield "quantity" (jnum r.quantity), jfield "price" (jnum r.price),
    jfield "sum_total" (jnum r.sum_total)]

/-- Renders the purchases stats block. -/
def renderPurchasesStats (s : PurchasesStats) : String :=
  jobj [jfield "total_records" (toString s.total_records),
    jfield "suppliers" (toString s.suppliers), jfield "products" (toString s.products),
    jfield "total_sum" (jnum s.total_sum), jfield "min_date" (jopt s.min_date),
    jfield "max_date" (jopt s.max_date)]

/-- Renders the `search_purchases` result envelope. -/
def renderPurchases (r : PurchasesResult) : String :=
  jobj [jfield "type" (jstr r.type),
    jfield "data" (jarr (r.data.map renderPurchaseRow)),
    jfield "stats" ((r.stats.map renderPurchasesStats).getD (jobj [])),
    jfield "query_used" (jstr r.query_used)]

/-- Renders a sales record. -/
def renderSalesRow (r : SalesRow) : String :=
  jobj [jfield "doc_type" (jstr r.doc_type), jfield "doc_date" (jstr r.doc_date),
    jfield "doc_number" (jstr r.doc_number), jfield "client_name" (jstr r.client_name),
    jfield "nomenclature_name" (jstr r.nomenclature_name),
    jfield "quantity" (jnum r.quantity), jfield "price" (jnum r.price),
    jfield "sum_with_vat" (jnum r.sum_with_vat)]

/-- Renders the sales stats block. -/
def renderSalesStats (s : SalesStats) : String :=
  jobj [jfield "total_records" (toString s.total_records),
    jfield "clients" (toString s.clients), jfield "sales_sum" (jnum s.sales_sum),
    jfield "corrections_sum" (jnum s.corrections_sum)]

/-- Renders the `search_sales` result envelope. -/
def renderSales (r : SalesResult) : String :=
  jobj [jfield "type" (jstr r.type),
    jfield "data" (jarr (r.data.map renderSalesRow)),
    jfield "stats" ((r.stats.map renderSalesStats).getD (jobj []))]

/-- Renders a nomenclature record. -/
def renderNomRow (r : NomRow) : String :=
  jobj [jfield "name" (jstr r.name), jfield "article" (jstr r.article),
    jfield "code" (jstr r.code), jfield "type_name" (jopt r.type_name)]

/-- Renders the `search_nomenclature` result envelope. -/
def renderNom (r : NomResult) : String :=
  jobj [jfield "type" (jstr r.type), jfield "data" (jarr (r.data.map renderNomRow)),
    jfield "total_found" (toString r.total_found)]

/-- Renders a client record. -/
def renderClientRow (r : ClientRow) : String :=
  jobj [jfield "name" (jstr r.name), jfield "inn" (jstr r.inn)]

/-- Renders the `search_clients` result envelope. -/
def renderClients (r : ClientsResult) : String :=
  jobj [jfield "type" (jstr r.type), jfield "data" (jarr (r.data.map renderClientRow)),
    jfield "total_found" (toString r.total_found)]

/-- Renders a price-dynamics record. -/
def renderPriceRow (r : PriceRow) : String :=
  jobj [jfield "doc_date" (jstr r.doc_date),
    jfield "contractor_name" (jstr r.contractor_name),
    jfield "price" (jnum r.price), jfield "quantity" (jnum r.quantity)]

/-- Renders the price-dynamics stats block. -/
def renderPriceStats (s : PriceStats) : String :=
  jobj [jfield "min_price" (jnum s.min_price), jfield "max_price" (jnum s.max_price),
    jfield "avg_price" (jnum s.avg_price), jfield "first_price" (jnum s.first_price),
    jfield "last_price" (jnum s.last_price),
    jfield "price_change_pct" (jnum s.price_change_pct)]

/-- Renders the `get_price_dynamics` result envelope. -/
def renderPriceDyn (r : PriceDynResult) : String :=
  jobj ([jfield "type" (jstr r.type)]
    ++ (match r.nomenclature with | none => [] | some n => [jfield "nomenclature" (jstr n)])
    ++ [jfield "data" (jarr (r.data.map renderPriceRow))]
    ++ (match r.message with | none => [] | some m => [jfield "message" (jstr m)])
    ++ (match r.stats with | none => [] | some s => [jfield "stats" (renderPriceStats s)]))

/-- Renders a top-clients leaderboard row. -/
def renderTopClientRow (r : TopClientRow) : String :=
  jobj [jfield "client_name" (jstr r.client_name), jfield "total_sum" (jnum r.total_sum),
    jfield "orders_count" (toString r.orders_count)]

/-- Renders the `get_top_clients` result envelope. -/
def renderTopClients (r : TopClientsResult) : String :=
  jobj [jfield "type" (jstr r.type), jfield "data" (jarr (r.data.map renderTopClientRow))]

/-- Renders a top-products leaderboard row. -/
def renderTopProductRow (r : TopProductRow) : String :=
  jobj [jfield "nomenclature_name" (jstr r.nomenclature_name),
    jfield "total_qty" (jnum r.total_qty), jfield "total_sum" (jnum r.total_sum)]

/-- Renders the `get_top_products` result envelope. -/
def renderTopProducts (r : TopProductsResult) : String :=
  jobj [jfield "type" (jstr r.type), jfield "data" (jarr (r.data.map renderTopProductRow))]

/-- Renders the `get_summary_stats` result envelope. -/
def renderSummary (r : SummaryResult) : String :=
  jobj [jfield "type" (jstr "summary"),
    jfield "purchases" (jobj [jfield "records" (toString r.purchases_records),
      jfield "total_sum" (jnum r.purchases_total_sum),
      jfield "period" (jstr r.purchases_period)]),
    jfield "sales" (jobj [jfield "records" (toString r.sales_records),
      jfield "sales_sum" (jnum r.sales_sum),
      jfield "corrections_sum" (jnum r.corrections_sum),
      jfield "period" (jstr r.sales_period)]),
    jfield "nomenclature_count" (toString r.nomenclature_count),
    jfield "clients_count" (toString r.clients_count)]

/-! ### Tool dispatcher (`execute_tool`)

Model-supplied arguments arrive as a keyword mapping.  Binding models
Python's keyword expansion: an unexpected keyword or a missing required
argument is a `TypeError` (raised, then captured by `execute_tool`); an
absent optional argument takes the operation's own default.  Values are
taken as typed by the declared tool schema (string filters, integer limit).
-/

/-- A model-supplied argument value (typed per the declared tool schema). -/
inductive Arg where
  | str (s : String)
  | int (n : Int)
  deriving DecidableEq

/-- Looks up an optional string argument. -/
def getOptStr (input : List (String × Arg)) (key : String) :
    Except String (Option String) :=
  match input.lookup key with
  | none => .ok none
  | some (.str s) => .ok (some s)
  | some (.int _) => .error ("TypeError: argument " ++ key ++ " is not a string")

/-- Looks up an integer argument, with the operation's default. -/
def getIntD (input : List (String × Arg)) (key : String) (d : Int) :
    Except String Int :=
  match input.lookup key with
  | none => .ok d
  | some (.int n) => .ok n
  | some (.str _) => .error ("TypeError: argument " ++ key ++ " is not an integer")

/-- Looks up a required string argument (`nomenclature` has no default). -/
def getReqStr (input : List (String × Arg)) (key : String) :
    Except String String :=
  match input.lookup key with
  | some (.str s) => .ok s
  | some (.int _) => .error ("TypeError: argument " ++ key ++ " is not a string")
  | none => .error ("TypeError: missing required argument " ++ key)

/-- Python keyword expansion: every supplied key must be a declared parameter. -/
def keysOk (input : List (String × Arg)) (keys : List String) : Bool :=
  input.all (fun kv => keys.contains kv.1)

/-- The bound arguments of `search_purchases`. -/
structure PurchaseArgs where
  query : Option String
  supplier : Option String
  date_from : Option String
  date_to : Option String
  limit : Int
  deriving DecidableEq

/-- Binds `search_purchases` keyword arguments (default `limit = 20`). -/
def bindPurchaseArgs (input : List (String × Arg)) : Except String PurchaseArgs :=
  if keysOk input ["query", "supplier", "date_from", "date_to", "limit"] then do
    let q ← getOptStr input "query"
    let s ← getOptStr input "supplier"
    let f ← getOptStr input "date_from"
    let t ← getOptStr input "date_to"
    let l ← getIntD input "limit" 20
    .ok ⟨q, s, f, t, l⟩
  else .error "TypeError: unexpected keyword argument"

/-- The bound arguments of `search_sales`. -/
structure SalesArgs where
  query : Option String
  client : Option String
  doc_type : Option String
  date_from : Option String
  date_to : Option String
  limit : Int
  deriving DecidableEq

/-- Binds `search_sales` keyword arguments (default `limit = 20`). -/
def bindSalesArgs (input : List (String × Arg)) : Except String SalesArgs :=
  if keysOk input ["query", "client", "doc_type", "date_from", "date_to", "limit"] then do
    let q ← getOptStr input "query"
    let c ← getOptStr input "client"
    let d ← getOptStr input "doc_type"
    let f ← getOptStr input "date_from"
    let t ← getOptStr input "date_to"
    let l ← getIntD input "limit" 20
    .ok ⟨q, c, d, f, t, l⟩
  else .error "TypeError: unexpected keyword argument"

/-- The bound arguments of `search_nomenclature` and `search_clients`. -/
structure QueryArgs where
  query : Option String
  limit : Int
  deriving DecidableEq

/-- Binds `search_nomenclature`/`search_clients` keyword arguments
(default `limit = 30`). -/
def bindQueryArgs (input : List (String × Arg)) : Except String QueryArgs :=
  if keysOk input ["query", "limit"] then do
    let q ← getOptStr input "query"
    let l ← getIntD input "limit" 30
    .ok ⟨q, l⟩
  else .error "TypeError: unexpected keyword argument"

/-- The bound argument of `get_price_dynamics`. -/
structure PriceDynArgs where
  nomenclature : String
  deriving DecidableEq

/-- Binds the required `nomenclature` argument of `get_price_dynamics`. -/
def bindPriceDynArgs (input : List (String × Arg)) : Except String PriceDynArgs :=
  if keysOk input ["nomenclature"] then do
    let n ← getReqStr input "nomenclature"
    .ok ⟨n⟩
  else .error "TypeError: unexpected keyword argument"

/-- The bound arguments of `get_top_clients` and `get_top_products`. -/
structure TopArgs where
  date_from : Option String
  date_to : Option String
  limit : Int
  deriving DecidableEq

/-- Binds `get_top_clients`/`get_top_products` keyword arguments
(default `limit = 10`). -/
def bindTopArgs (input : List (String × Arg)) : Except String TopArgs :=
  if keysOk input ["date_from", "date_to", "limit"] then do
    let f ← getOptStr input "date_from"
    let t ← getOptStr input "date_to"
    let l ← getIntD input "limit" 10
    .ok ⟨f, t, l⟩
  else .error "TypeError: unexpected keyword argument"

/-- The Capability Registry's names, in declaration order (`TOOLS`). -/
def TOOL_NAMES : List String :=
  ["search_purchases", "search_sales", "search_nomenclature", "search_clients",
   "get_price_dynamics", "get_top_clients", "get_top_products", "get_summary_stats"]

/-- The body of `execute_tool`'s `try` block: dispatch by capability name,
bind arguments, run the operation, serialize.  An unknown name is not an
exception — the source builds the error dict and serializes it normally. -/
def executeToolE (name : String) (input : List (String × Arg)) (st : Store) :
    Except String String :=
  if name = "search_purchases" then do
    let a ← bindPurchaseArgs input
    .ok (renderPurchases (search_purchases st a.query a.supplier a.date_from a.date_to a.limit))
  else if name = "search_sales" then do
    let a ← bindSalesArgs input
    .ok (renderSales (search_sales st a.query a.client a.doc_type a.date_from a.date_to a.limit))
  else if name = "search_nomenclature" then do
    let a ← bindQueryArgs input
    .ok (renderNom (search_nomenclature st a.query a.limit))
  else if name = "search_clients" then do
    let a ← bindQueryArgs input
    .ok (renderClients (search_clients st a.query a.limit))
  else if name = "get_price_dynamics" then do
    let a ← bindPriceDynArgs input
    let r ← get_price_dynamics st a.nomenclature
    .ok (renderPriceDyn r)
  else if name = "get_top_clients" then do
    let a ← bindTopArgs input
    .ok (renderTopClients (get_top_clients st a.date_from a.date_to a.limit))
  else if name = "get_top_products" then do
    let a ← bindTopArgs input
    .ok (renderTopProducts (get_top_products st a.date_from a.date_to a.limit))
  else if name = "get_summary_stats" then do
    let r ← get_summary_stats st
    .ok (renderSummary r)
  else .ok (jsonError ("Неизвестный инструмент: " ++ name))

/-- Embedding of `execute_tool`: the `try`/`except` wrapper turns any raised
failure into the structured error payload; the function always returns a
serialized string. -/
def execute_tool (name : String) (input : List (String × Arg)) (st : Store) : String :=
  match executeToolE name input st with
  | .ok s => s
  | .error e => jsonError e

/-! ### Conversation orchestrator (`get_ai_response`) -/

/-- One `tool_use` content block of a model response. -/
structure ToolUseBlock where
  id : String
  name : String
  input : List (String × Arg)
  deriving DecidableEq

/-- A content block of a model response. -/
inductive Block where
  | text (s : String)
  | toolUse (t : ToolUseBlock)
  deriving DecidableEq

/-- A provider response: a stop reason and content blocks. -/
structure ModelResponse where
  stopReason : String
  content : List Block
  deriving DecidableEq

/-- One serialized invocation result, paired by `tool_use_id`. -/
structure ToolResult where
  tool_use_id : String
  content : String
  deriving DecidableEq

/-- The content of one transcript turn. -/
inductive TurnContent where
  | text (s : String)
  | blocks (bs : List Block)
  | toolResults (rs : List ToolResult)
  deriving DecidableEq

/-- One transcript turn (`\x7b"role": ..., "content": ...\x7d`). -/
structure Turn where
  role : String
  content : TurnContent
  deriving DecidableEq

/-- One `tools_used` audit entry. -/
structure ToolLogEntry where
  name : String
  input : List (String × Arg)
  output_preview : String
  deriving DecidableEq

/-- The `tool_use` blocks of a response, in order. -/
def toolCallsOf (r : ModelResponse) : List ToolUseBlock :=
  r.content.filterMap (fun b => match b with | .toolUse t => some t | _ => none)

/-- The truncated result preview stored in the audit log. -/
def preview (s : String) : String :=
  if s.length > 500 then s.take 500 ++ "..." else s

/-- Dispatches one round's invocations and pairs each result with its
invocation's correlation identifier. -/
def mkToolResults (st : Store) (calls : List ToolUseBlock) : List ToolResult :=
  calls.map (fun c => ⟨c.id, execute_tool c.name c.input st⟩)

/-- The audit-log entries of one round. -/
def mkLogs (st : Store) (calls : List ToolUseBlock) : List ToolLogEntry :=
  calls.map (fun c => ⟨c.name, c.input, preview (execute_tool c.name c.input st)⟩)

/-- Concatenation of the text blocks of a final response
(`if hasattr(block, "text")`). -/
def extractText (bs : List Block) : String :=
  bs.foldl (fun acc b => match b with | .text s => acc ++ s | _ => acc) ""

/-- The `while True:` loop of `get_ai_response`, driven by the (finite prefix
of the) sequence of provider responses.  Returns `none` when every supplied
response asks for more invocations — the code would still be looping. -/
def orchLoop (st : Store) :
    List ModelResponse → List Turn → List ToolLogEntry →
    Option (String × List ToolLogEntry × List Turn)
  | [], _, _ => none
  | r :: rest, msgs, log =>
    if r.stopReason = "tool_use" then
      orchLoop st rest
        (msgs ++ [⟨"assistant", .blocks r.content⟩,
                  ⟨"user", .toolResults (mkToolResults st (toolCallsOf r))⟩])
        (log ++ mkLogs st (toolCallsOf r))
    else some (extractText r.content, log, msgs)

/-- Embedding of `get_ai_response`: prior history plus the new user message,
then the orchestration loop with an empty audit log. -/
def get_ai_response (st : Store) (responses : List ModelResponse)
    (user_message : String) (chat_history : List Turn) :
    Option (String × List ToolLogEntry × List Turn) :=
  orchLoop st responses (chat_history ++ [⟨"user", .text user_message⟩]) []

/-- The final-answer component of a loop outcome. -/
def answerOf (o : Option (String × List ToolLogEntry × List Turn)) : Option String :=
  o.map (fun x => x.1)

/-- The transcript length of a loop outcome. -/
def transcriptLenOf (o : Option (String × List ToolLogEntry × List Turn)) : Option Nat :=
  o.map (fun x => x.2.2.length)

/-- An empty, healthy store used by concrete witnesses. -/
def exStore : Store := ⟨[], [], [], [], false⟩

/-- A concrete invocation block used by the pairing witness. -/
def exCallA : ToolUseBlock := ⟨"toolu_01", "get_summary_stats", []⟩

/-- A second concrete invocation block used by the pairing witness. -/
def exCallB : ToolUseBlock := ⟨"toolu_02", "search_clients", [("query", .str "Магнит")]⟩

/-- A concrete `tool_use` response used by the pairing witness. -/
def exRespTU : ModelResponse :=
  ⟨"tool_use", [.text "Смотрю данные.", .toolUse exCallA, .toolUse exCallB]⟩

/-- A concrete purchase row used by filter-semantics witnesses. -/
def exPurchRow : PurchaseRow :=
  ⟨"2024-05-10", "P-1", "ООО Поставщик", "Сахар", 100, 50, 5000⟩

/-- A one-row store used by filter-semantics witnesses. -/
def exPStore : Store := ⟨[exPurchRow], [], [], [], false⟩

/-- An early purchase of flour (price 100), for the price-dynamics witness. -/
def c7Row1 : PurchaseRow := ⟨"2024-01-10", "p1", "ООО А", "Мука", 10, 100, 1000⟩

/-- A later purchase of flour (price 150), for the price-dynamics witness. -/
def c7Row2 : PurchaseRow := ⟨"2024-02-10", "p2", "ООО Б", "Мука", 10, 150, 1500⟩

/-- A two-row store, deliberately unsorted, for the price-dynamics witness. -/
def c7Store : Store := ⟨[c7Row2, c7Row1], [], [], [], false⟩

/-- A matching purchase row with price zero. -/
def c7zRow : PurchaseRow := ⟨"2024-03-01", "pz", "ООО В", "Изюм", 5, 0, 0⟩

/-- A store on which the price-dynamics division has a zero divisor. -/
def c7zStore : Store := ⟨[c7zRow], [], [], [], false⟩

/-- A second zero-price matching row, for the division-guard counterexample. -/
def c10Row : PurchaseRow := ⟨"2024-04-01", "p0", "ООО Г", "Ваниль", 1, 0, 0⟩

/-- A store reaching the division error branch of `get_price_dynamics`. -/
def c10Store : Store := ⟨[c10Row], [], [], [], false⟩

/-- A realization sale row for the leaderboard witness. -/
def c8Row1 : SalesRow := ⟨"Реализация", "2024-06-01", "s1", "A", "Торт", 2, 500, 1000⟩

/-- A one-sale store for the leaderboard witness. -/
def c8Store : Store := ⟨[], [c8Row1], [], [], false⟩

/-- A matching purchase row replicated to make stores of any size. -/
def c9Row : PurchaseRow := ⟨"2024-01-01", "r", "Поставщик", "x", 1, 1, 1⟩

/-- A healthy store holding `n` copies of the matching row. -/
def c9Store (n : Nat) : Store := ⟨List.replicate n c9Row, [], [], [], false⟩

/-- The number of records carried by a price-dynamics outcome. -/
def priceDataLen : Except String PriceDynResult → Nat
  | .ok r => r.data.length
  | .error _ => 0

/-! ### Shared helper lemmas -/

/-- The running minimum of a column is a lower bound of its values. -/
lemma foldl_min_le {α : Type} [LinearOrder α] :
    ∀ (l : List α) (x : α), ∀ p ∈ x :: l, l.foldl min x ≤ p := by
  intro l
  induction l with
  | nil =>
    intro x p hp
    rw [List.mem_singleton] at hp
    subst hp
    exact le_refl _
  | cons y ys ih =>
    intro x p hp
    rw [List.foldl_cons]
    rcases List.mem_cons.mp hp with heq | hp'
    · rw [heq]
      exact le_trans (ih (min x y) _ (List.mem_cons_self _ _)) (min_le_left x y)
    · rcases List.mem_cons.mp hp' with heq | hp''
      · rw [heq]
        exact le_trans (ih (min x y) _ (List.mem_cons_self _ _)) (min_le_right x y)
      · exact ih (min x y) p (List.mem_cons_of_mem _ hp'')

/-- The running minimum of a column is one of its values. -/
lemma foldl_min_mem {α : Type} [LinearOrder α] :
    ∀ (l : List α) (x : α), l.foldl min x ∈ x :: l := by
  intro l
  induction l with
  | nil => intro x; exact List.mem_singleton.mpr rfl
  | cons y ys ih =>
    intro x
    rw [List.foldl_cons]
    rcases List.mem_cons.mp (ih (min x y)) with heq | hmem
    · rcases min_choice x y with h1 | h1
      · rw [heq, h1]
        exact List.mem_cons_self _ _
      · rw [heq, h1]
        exact List.mem_cons_of_mem _ (List.mem_cons_self _ _)
    · exact List.mem_cons_of_mem _ (List.mem_cons_of_mem _ hmem)

/-- The running maximum of a column is an upper bound of its values. -/
lemma le_foldl_max {α : Type} [LinearOrder α] :
    ∀ (l : List α) (x : α), ∀ p ∈ x :: l, p ≤ l.foldl max x := by
  intro l
  induction l with
  | nil =>
    intro x p hp
    rw [List.mem_singleton] at hp
    subst hp
    exact le_refl _
  | cons y ys ih =>
    intro x p hp
    rw [List.foldl_cons]
    rcases List.mem_cons.mp hp with heq | hp'
    · rw [heq]
      exact le_trans (le_max_left x y) (ih (max x y) _ (List.mem_cons_self _ _))
    · rcases List.mem_cons.mp hp' with heq | hp''
      · rw [heq]
        exact le_trans (le_max_right x y) (ih (max x y) _ (List.mem_cons_self _ _))
      · exact ih (max x y) p (List.mem_cons_of_mem _ hp'')

/-- The running maximum of a column is one of its values. -/
lemma foldl_max_mem {α : Type} [LinearOrder α] :
    ∀ (l : List α) (x : α), l.foldl max x ∈ x :: l := by
  intro l
  induction l with
  | nil => intro x; exact List.mem_singleton.mpr rfl
  | cons y ys ih =>
    intro x
    rw [List.foldl_cons]
    rcases List.mem_cons.mp (ih (max x y)) with heq | hmem
    · rcases max_choice x y with h1 | h1
      · rw [heq, h1]
        exact List.mem_cons_self _ _
      · rw [heq, h1]
        exact List.mem_cons_of_mem _ (List.mem_cons_self _ _)
    · exact List.mem_cons_of_mem _ (List.mem_cons_of_mem _ hmem)

/-- `getLastD` on the tail is the last element of the whole list. -/
lemma getLastD_eq_getLast {α : Type} (a : α) (l : List α) :
    l.getLastD a = (a :: l).getLast (List.cons_ne_nil a l) := by
  induction l generalizing a with
  | nil => rfl
  | cons b m ih =>
    rw [List.getLastD_cons, ih b]
    exact (List.getLast_cons _).symm

/-- The price-dynamics frame is chronologically sorted. -/
lemma priceDynRows_sorted (st : Store) (nom : String) :
    (priceDynRows st nom).Pairwise (fun a b => strLe a.doc_date b.doc_date = true) := by
  unfold priceDynRows runQuery
  cases hf : st.failing with
  | true => simp
  | false =>
    simp only [Bool.false_eq_true, if_false]
    rw [List.pairwise_map]
    exact List.sorted_insertionSort (strOrdAsc PurchaseRow.doc_date)
      (st.purchases.filter (fun r => ilike r.nomenclature_name nom))

/-- Sorting a constant list leaves it unchanged. -/
lemma insertionSort_replicate {α : Type} (r : α → α → Prop) [DecidableRel r]
    (n : Nat) (a : α) :
    List.insertionSort r (List.replicate n a) = List.replicate n a := by
  refine List.eq_replicate_iff.mpr ⟨?_, ?_⟩
  · rw [List.length_insertionSort, List.length_replicate]
  · intro b hb
    exact List.eq_of_mem_replicate ((List.mem_insertionSort r).mp hb)

/-- On the `n`-copy store the price-dynamics frame is the `n`-copy row list. -/
lemma c9_priceDynRows (n : Nat) :
    priceDynRows (c9Store n) "x" = List.replicate n (projPrice c9Row) := by
  unfold priceDynRows runQuery c9Store
  simp only [Bool.false_eq_true, if_false]
  have hfull : (List.replicate n c9Row).filter (fun r => ilike r.nomenclature_name "x")
      = List.replicate n c9Row := by
    refine List.filter_eq_self.mpr ?_
    intro a ha
    rw [List.eq_of_mem_replicate ha]
    decide
  rw [hfull, insertionSort_replicate, List.map_replicate]

/-- On the `n`-copy store `get_price_dynamics` returns exactly `n` records. -/
lemma c9_data_len (n : Nat) :
    priceDataLen (get_price_dynamics (c9Store n) "x") = n := by
  cases n with
  | zero =>
    have h := c9_priceDynRows 0
    simp [get_price_dynamics, h, priceDataLen]
  | succ m =>
    have h : priceDynRows (c9Store (m + 1)) "x"
        = projPrice c9Row :: List.replicate m (projPrice c9Row) := by
      rw [c9_priceDynRows, List.replicate_succ]
    have h0 : (projPrice c9Row).price ≠ 0 := by decide
    simp [get_price_dynamics, h, h0, priceDataLen]

/-- On the `n`-copy store, `search_purchases` with limit `n` returns `n` rows. -/
lemma c9_search_len (n : Nat) :
    (search_purchases (c9Store n) none none none none (n : Int)).data.length = n := by
  have hfull : (List.replicate n c9Row).filter (purchaseMatches none none none none)
      = List.replicate n c9Row :=
    List.filter_eq_self.mpr (fun a _ => rfl)
  have hlim : takeLimit (n : Int) (List.replicate n c9Row) = List.replicate n c9Row := by
    unfold takeLimit
    rw [if_neg (by omega), List.take_of_length_le (by simp [Int.toNat_ofNat])]
  simp only [search_purchases, runQuery, c9Store, Bool.false_eq_true, if_false,
    hfull, insertionSort_replicate, hlim, List.length_replicate]

/-- A limited result list is a sublist of the unlimited one. -/
lemma takeLimit_sublist {α : Type} (limit : Int) (l : List α) :
    (takeLimit limit l).Sublist l := by
  unfold takeLimit
  split
  · exact List.nil_sublist l
  · exact List.take_sublist _ l

/-- Membership in a limited result list implies membership in the unlimited one. -/
lemma takeLimit_subset {α : Type} (limit : Int) (l : List α) :
    takeLimit limit l ⊆ l :=
  (takeLimit_sublist limit l).subset

/-- A limited result list never exceeds the limit. -/
lemma takeLimit_length_le {α : Type} (limit : Int) (l : List α) :
    (takeLimit limit l).length ≤ limit.toNat := by
  unfold takeLimit
  split
  · simp
  · exact (List.length_take _ _).le.trans (min_le_left _ _)

/-- The loop yields an answer exactly when some supplied response stops for a
reason other than `tool_use`. -/
lemma orchLoop_isSome_iff (st : Store) (rs : List ModelResponse) :
    ∀ msgs log, (orchLoop st rs msgs log).isSome = true ↔
      ∃ r ∈ rs, r.stopReason ≠ "tool_use" := by
  induction rs with
  | nil => intro msgs log; simp [orchLoop]
  | cons r rest ih =>
    intro msgs log
    by_cases h : r.stopReason = "tool_use"
    · simp only [orchLoop, if_pos h, ih, List.mem_cons]
      constructor
      · rintro ⟨x, hx, hne⟩
        exact ⟨x, Or.inr hx, hne⟩
      · rintro ⟨x, hx, hne⟩
        rcases hx with rfl | hx
        · exact absurd h hne
        · exact ⟨x, hx, hne⟩
    · simp only [orchLoop, if_neg h]
      exact iff_of_true rfl ⟨r, List.mem_cons_self r rest, h⟩

/-- Running the loop through `pre` all-invocation rounds and then a final
response returns that response's text, having appended two turns per round. -/
lemma orchLoop_rounds (st : Store) (pre : List ModelResponse) :
    ∀ msgs log (r : ModelResponse) (rest : List ModelResponse),
      (∀ p ∈ pre, p.stopReason = "tool_use") → r.stopReason ≠ "tool_use" →
      answerOf (orchLoop st (pre ++ r :: rest) msgs log) = some (extractText r.content)
        ∧ transcriptLenOf (orchLoop st (pre ++ r :: rest) msgs log)
            = some (msgs.length + 2 * pre.length) := by
  induction pre with
  | nil =>
    intro msgs log r rest _ hr
    simp [orchLoop, if_neg hr, answerOf, transcriptLenOf]
  | cons p pre ih =>
    intro msgs log r rest hpre hr
    have hp : p.stopReason = "tool_use" := hpre p (List.mem_cons_self p pre)
    have step := ih
      (msgs ++ [⟨"assistant", .blocks p.content⟩,
                ⟨"user", .toolResults (mkToolResults st (toolCallsOf p))⟩])
      (log ++ mkLogs st (toolCallsOf p)) r rest
      (fun q hq => hpre q (List.mem_cons_of_mem p hq)) hr
    simp only [List.cons_append, orchLoop, if_pos hp, List.append_eq]
    refine ⟨step.1, ?_⟩
    rw [step.2]
    simp only [List.length_append, List.length_cons, List.length_nil, Option.some.injEq]
    omega

/-! ### Claims -/

/-- C1: whenever a model response with stop reason `tool_use` contributes an
assistant turn to the transcript, the loop appends immediately after it a
single tool-result turn whose results' `tool_use_id`s are exactly the
identifiers of that turn's `tool_use` blocks — one result per invocation, in
order — before the next model request (the recursive call) is issued. -/
theorem c1_tool_result_pairing (st : Store) (r : ModelResponse)
    (rest : List ModelResponse) (msgs : List Turn) (log : List ToolLogEntry)
    (h : r.stopReason = "tool_use") :
    orchLoop st (r :: rest) msgs log =
      orchLoop st rest
        (msgs ++ [⟨"assistant", .blocks r.content⟩,
                  ⟨"user", .toolResults (mkToolResults st (toolCallsOf r))⟩])
        (log ++ mkLogs st (toolCallsOf r))
      ∧ (mkToolResults st (toolCallsOf r)).map ToolResult.tool_use_id
          = (toolCallsOf r).map ToolUseBlock.id := by
  refine ⟨?_, ?_⟩
  · simp [orchLoop, h]
  · simp [mkToolResults]

/-- Witness for C1 at a concrete two-invocation response. -/
theorem c1_tool_result_pairing_witness :
    (mkToolResults exStore (toolCallsOf exRespTU)).map ToolResult.tool_use_id
      = (toolCallsOf exRespTU).map ToolUseBlock.id :=
  (c1_tool_result_pairing exStore exRespTU [] [] [] rfl).2

/-- C3: the orchestrator loop has no iteration cap — it yields an answer
exactly when some response stops for a reason other than `tool_use`, it
performs one two-turn invocation round per `tool_use` response before the
first such response, and for every `n` there is a response sequence that
drives `n` rounds and still returns. -/
theorem c3_loop_uncapped :
    (∀ st rs msgs log, (orchLoop st rs msgs log).isSome = true ↔
        ∃ r ∈ rs, r.stopReason ≠ "tool_use")
      ∧ (∀ st msgs log (pre : List ModelResponse) (r : ModelResponse) rest,
          (∀ p ∈ pre, p.stopReason = "tool_use") → r.stopReason ≠ "tool_use" →
          answerOf (orchLoop st (pre ++ r :: rest) msgs log) = some (extractText r.content)
            ∧ transcriptLenOf (orchLoop st (pre ++ r :: rest) msgs log)
                = some (msgs.length + 2 * pre.length))
      ∧ (∀ st msgs log (n : Nat), ∃ rs : List ModelResponse,
          answerOf (orchLoop st rs msgs log) ≠ none
            ∧ transcriptLenOf (orchLoop st rs msgs log) = some (msgs.length + 2 * n)) := by
  refine ⟨fun st rs msgs log => orchLoop_isSome_iff st rs msgs log,
          fun st msgs log pre r rest hpre hr => orchLoop_rounds st pre msgs log r rest hpre hr,
          fun st msgs log n => ?_⟩
  refine ⟨List.replicate n ⟨"tool_use", []⟩ ++ [⟨"end_turn", [.text "done"]⟩], ?_, ?_⟩
  · have h := orchLoop_rounds st (List.replicate n ⟨"tool_use", []⟩) msgs log
      ⟨"end_turn", [.text "done"]⟩ []
      (fun p hp => by rw [List.eq_of_mem_replicate hp]) (by decide)
    rw [h.1]
    simp
  · have h := orchLoop_rounds st (List.replicate n ⟨"tool_use", []⟩) msgs log
      ⟨"end_turn", [.text "done"]⟩ []
      (fun p hp => by rw [List.eq_of_mem_replicate hp]) (by decide)
    rw [h.2, List.length_replicate]

/-- C2 counterexample: two invocations of `search_purchases` with the same
set of present parameters (the limit is supplied in both) but different
limit values produce different query strings — the limit value is
interpolated into the SQL text, not passed through the parameter channel. -/
theorem c2_limit_in_sql_text :
    searchPurchasesSql none none none none 20 ≠ searchPurchasesSql none none none none 30 := by
  decide

/-- C2 (amended): for both search operations the SQL text depends only on
which filter parameters are present (truthy) and on the limit value; every
filter value travels only in the ordered parameter list, whose contents are
exactly the wrapped filter values. -/
theorem c2_sql_value_independence :
    (∀ (q₁ s₁ f₁ t₁ q₂ s₂ f₂ t₂ : Option String) (L : Int),
        truthy q₁ = truthy q₂ → truthy s₁ = truthy s₂ →
        truthy f₁ = truthy f₂ → truthy t₁ = truthy t₂ →
        searchPurchasesSql q₁ s₁ f₁ t₁ L = searchPurchasesSql q₂ s₂ f₂ t₂ L)
      ∧ (∀ (q₁ c₁ d₁ f₁ t₁ q₂ c₂ d₂ f₂ t₂ : Option String) (L : Int),
          truthy q₁ = truthy q₂ → truthy c₁ = truthy c₂ → truthy d₁ = truthy d₂ →
          truthy f₁ = truthy f₂ → truthy t₁ = truthy t₂ →
          searchSalesSql q₁ c₁ d₁ f₁ t₁ L = searchSalesSql q₂ c₂ d₂ f₂ t₂ L)
      ∧ (∀ (q s f t : String),
          purchaseParams (some q) (some s) (some f) (some t)
            = (if truthy (some q) then ["%" ++ q ++ "%", "%" ++ q ++ "%"] else [])
              ++ (if truthy (some s) then ["%" ++ s ++ "%"] else [])
              ++ (if truthy (some f) then [f] else [])
              ++ (if truthy (some t) then [t] else [])) := by
  refine ⟨?_, ?_, ?_⟩
  · intro q₁ s₁ f₁ t₁ q₂ s₂ f₂ t₂ L hq hs hf ht
    simp [searchPurchasesSql, purchaseConds, hq, hs, hf, ht]
  · intro q₁ c₁ d₁ f₁ t₁ q₂ c₂ d₂ f₂ t₂ L hq hc hd hf ht
    simp [searchSalesSql, salesConds, hq, hc, hd, hf, ht]
  · intro q s f t
    simp [purchaseParams]

/-- Witness for C2 (amended): identical query text for two different sets of
filter values with the same presence pattern. -/
theorem c2_sql_value_independence_witness :
    searchPurchasesSql (some "мука") none (some "2024-01-01") none 20
      = searchPurchasesSql (some "сахар") none (some "2025-06-30") none 20 :=
  c2_sql_value_independence.1 (some "мука") none (some "2024-01-01") none
    (some "сахар") none (some "2025-06-30") none 20
    (by decide) (by decide) (by decide) (by decide)

/-- A store whose every query raises (a lost connection), used for C4. -/
def failStore : Store := ⟨[], [], [], [], true⟩

/-- C4: on a store-access failure, every search/leaderboard/price operation
degrades to an empty result set because `execute_query` catches the error —
but `get_summary_stats` instead indexes row 0 of the empty frame and raises
(IndexError), escaping the Data Access Layer; only the Dispatcher's generic
handler turns it into an error payload, which keeps the conversation alive. -/
theorem c4_summary_raises_on_store_failure :
    get_summary_stats failStore
        = .error "IndexError: single positional indexer is out-of-bounds"
      ∧ (search_purchases failStore none none none none 20).data = []
      ∧ (search_sales failStore none none none none none 20).data = []
      ∧ (search_nomenclature failStore none 30).data = []
      ∧ (search_clients failStore none 30).data = []
      ∧ get_price_dynamics failStore "мука"
          = .ok ⟨"price_dynamics", none, [], some "Данные не найдены", none⟩
      ∧ (get_top_clients failStore none none 10).data = []
      ∧ (get_top_products failStore none none 10).data = []
      ∧ execute_tool "get_summary_stats" [] failStore
          = jsonError "IndexError: single positional indexer is out-of-bounds" := by
  exact ⟨rfl, rfl, rfl, rfl, rfl, rfl, rfl, rfl, rfl⟩

/-- C5: the dispatcher is total and structured — the registry has exactly
eight capabilities; a name outside it yields the structured unknown-
capability payload; any failure raised while binding arguments or executing
is captured and returned as the structured error payload; every invocation
returns either the serialized success payload or a structured error payload. -/
theorem c5_dispatcher_structured :
    TOOL_NAMES.length = 8
      ∧ (∀ name input st, name ∉ TOOL_NAMES →
          execute_tool name input st = jsonError ("Неизвестный инструмент: " ++ name))
      ∧ (∀ name input st e, executeToolE name input st = .error e →
          execute_tool name input st = jsonError e)
      ∧ (∀ name input st,
          (∃ s, executeToolE name input st = .ok s ∧ execute_tool name input st = s)
            ∨ (∃ e, executeToolE name input st = .error e
                ∧ execute_tool name input st = jsonError e)) := by
  refine ⟨rfl, ?_, ?_, ?_⟩
  · intro name input st h
    simp only [TOOL_NAMES, List.mem_cons, List.not_mem_nil, or_false, not_or] at h
    obtain ⟨h1, h2, h3, h4, h5, h6, h7, h8⟩ := h
    simp [execute_tool, executeToolE, h1, h2, h3, h4, h5, h6, h7, h8]
  · intro name input st e he
    simp [execute_tool, he]
  · intro name input st
    cases h : executeToolE name input st with
    | ok s => exact Or.inl ⟨s, rfl, by simp [execute_tool, h]⟩
    | error e => exact Or.inr ⟨e, rfl, by simp [execute_tool, h]⟩

/-- Witness for C5: an unknown capability name yields the structured
unknown-capability payload, and a missing required argument is captured as a
structured error payload. -/
theorem c5_dispatcher_structured_witness :
    execute_tool "foo" [] exStore = jsonError ("Неизвестный инструмент: " ++ "foo")
      ∧ execute_tool "get_price_dynamics" [] exStore
          = jsonError "TypeError: missing required argument nomenclature" := by
  refine ⟨c5_dispatcher_structured.2.1 "foo" [] exStore (by decide), ?_⟩
  exact c5_dispatcher_structured.2.2.1 "get_price_dynamics" [] exStore
    "TypeError: missing required argument nomenclature" rfl

/-- Witness for C3: a concrete run with two invocation rounds that still
terminates with the final text. -/
theorem c3_loop_uncapped_witness :
    answerOf (orchLoop exStore
        (List.replicate 2 ⟨"tool_use", []⟩ ++ [⟨"end_turn", [.text "Готово"]⟩]) [] [])
      = some "Готово"
      ∧ transcriptLenOf (orchLoop exStore
          (List.replicate 2 ⟨"tool_use", []⟩ ++ [⟨"end_turn", [.text "Готово"]⟩]) [] [])
          = some 4 := by
  have h := c3_loop_uncapped.2.1 exStore [] []
    (List.replicate 2 ⟨"tool_use", []⟩) ⟨"end_turn", [.text "Готово"]⟩ []
    (by decide) (by decide)
  refine ⟨?_, ?_⟩
  · rw [h.1]
    rfl
  · rw [h.2]
    rfl

/-- C6: with no filters the predicates are always-true and the operation
returns the full record set bounded only by the limit; with both date bounds
the predicate is the inclusive range `[date_from, date_to]`, open on the
missing end when only one bound is given, and returned rows lie in the
range; substring filters depend only on the case-folded texts. -/
theorem c6_filter_semantics :
    (∀ r : PurchaseRow, purchaseMatches none none none none r = true)
      ∧ (∀ r : SalesRow, salesMatches none none none none none r = true)
      ∧ (∀ (st : Store) (L : Int), st.failing = false →
          (search_purchases st none none none none L).data
            = takeLimit L (List.insertionSort (strOrdDesc PurchaseRow.doc_date) st.purchases))
      ∧ (∀ (f t : String) (r : PurchaseRow), f ≠ "" → t ≠ "" →
          purchaseMatches none none (some f) (some t) r
            = (strLe f r.doc_date && strLe r.doc_date t))
      ∧ (∀ (f : String) (r : PurchaseRow), f ≠ "" →
          purchaseMatches none none (some f) none r = strLe f r.doc_date)
      ∧ (∀ (t : String) (r : PurchaseRow), t ≠ "" →
          purchaseMatches none none none (some t) r = strLe r.doc_date t)
      ∧ (∀ (f t : String) (r : SalesRow), f ≠ "" → t ≠ "" →
          salesMatches none none none (some f) (some t) r
            = (strLe f r.doc_date && strLe r.doc_date t))
      ∧ (∀ (st : Store) (f t : String) (L : Int) (r : PurchaseRow), f ≠ "" → t ≠ "" →
          r ∈ (search_purchases st none none (some f) (some t) L).data →
          strLe f r.doc_date = true ∧ strLe r.doc_date t = true)
      ∧ (∀ (pat h₁ h₂ : String), lowerStr h₁ = lowerStr h₂ → ilike h₁ pat = ilike h₂ pat)
      ∧ (∀ (hay p₁ p₂ : String), lowerStr p₁ = lowerStr p₂ → ilike hay p₁ = ilike hay p₂) := by
  refine ⟨fun r => rfl, fun r => rfl, ?_, ?_, ?_, ?_, ?_, ?_, ?_, ?_⟩
  · intro st L h
    have hfull : st.purchases.filter (purchaseMatches none none none none) = st.purchases :=
      List.filter_eq_self.mpr (fun a _ => rfl)
    simp [search_purchases, runQuery, h, hfull]
  · intro f t r hf ht
    simp [purchaseMatches, optFilter, hf, ht]
  · intro f r hf
    simp [purchaseMatches, optFilter, hf]
  · intro t r ht
    simp [purchaseMatches, optFilter, ht]
  · intro f t r hf ht
    simp [salesMatches, optFilter, hf, ht]
  · intro st f t L r hf ht hmem
    cases hfail : st.failing with
    | true => simp [search_purchases, runQuery, hfail] at hmem
    | false =>
      simp only [search_purchases, runQuery, hfail, Bool.false_eq_true, if_false] at hmem
      have h1 : r ∈ List.insertionSort (strOrdDesc PurchaseRow.doc_date)
          (st.purchases.filter (purchaseMatches none none (some f) (some t))) :=
        takeLimit_subset _ _ hmem
      have h2 : r ∈ st.purchases.filter (purchaseMatches none none (some f) (some t)) :=
        (List.mem_insertionSort _).mp h1
      have h3 := List.of_mem_filter h2
      simp only [purchaseMatches, optFilter, if_neg hf, if_neg ht, Bool.and_eq_true] at h3
      exact ⟨h3.1.2, h3.2⟩
  · intro pat h₁ h₂ h
    unfold ilike
    rw [h]
  · intro hay p₁ p₂ h
    unfold ilike
    rw [h]

/-- Witness for C6 at concrete filters, rows and a one-row store. -/
theorem c6_filter_semantics_witness :
    purchaseMatches none none (some "2024-01-01") (some "2024-12-31") exPurchRow
        = (strLe "2024-01-01" exPurchRow.doc_date && strLe exPurchRow.doc_date "2024-12-31")
      ∧ (search_purchases exStore none none none none 20).data
          = takeLimit 20 (List.insertionSort (strOrdDesc PurchaseRow.doc_date) exStore.purchases)
      ∧ (strLe "2024-01-01" exPurchRow.doc_date = true
          ∧ strLe exPurchRow.doc_date "2024-12-31" = true)
      ∧ ilike "Sugar Extra" "gar" = ilike "SUGAR EXTRA" "gar" := by
  refine ⟨?_, ?_, ?_, ?_⟩
  · exact c6_filter_semantics.2.2.2.1 "2024-01-01" "2024-12-31" exPurchRow
      (by decide) (by decide)
  · exact c6_filter_semantics.2.2.1 exStore 20 rfl
  · exact c6_filter_semantics.2.2.2.2.2.2.2.1 exPStore "2024-01-01" "2024-12-31" 20
      exPurchRow (by decide) (by decide) (by decide)
  · exact c6_filter_semantics.2.2.2.2.2.2.2.2.1 "gar" "Sugar Extra" "SUGAR EXTRA" (by decide)

/-- C7 counterexample: a store with one matching purchase record whose price
is zero — at least one record matches, yet `get_price_dynamics` returns the
division error, not a statistics block, so the claim as stated fails. -/
theorem c7_zero_price_no_stats :
    priceDynRows c7zStore "Изюм" = [projPrice c7zRow]
      ∧ get_price_dynamics c7zStore "Изюм" = .error "DivisionByZero: division by zero" :=
  ⟨rfl, rfl⟩

/-- C7 (amended): with no matching record the result is the explicit empty
marker (empty data plus the not-found message, no statistics); with at least
one matching record and a nonzero first chronological price the result is
the statistics block with the column minimum and maximum, the mean, the
chronologically first and last price (the data is sorted by date), and the
percentage change from first to last rounded to one decimal place. -/
theorem c7_price_dynamics (st : Store) (nom : String) :
    (priceDynRows st nom = [] →
        get_price_dynamics st nom
          = .ok ⟨"price_dynamics", none, [], some "Данные не найдены", none⟩)
      ∧ (∀ (first : PriceRow) (rest : List PriceRow),
          priceDynRows st nom = first :: rest → first.price ≠ 0 →
          (get_price_dynamics st nom = .ok ⟨"price_dynamics", some nom, first :: rest, none,
              some ⟨listMin ((first :: rest).map PriceRow.price),
                    listMax ((first :: rest).map PriceRow.price),
                    ((first :: rest).map PriceRow.price).sum
                      / (((first :: rest).map PriceRow.price).length : ℚ),
                    first.price,
                    (rest.getLastD first).price,
                    round1 (((rest.getLastD first).price - first.price)
                      / first.price * 100)⟩⟩)
            ∧ (∀ p ∈ (first :: rest).map PriceRow.price,
                listMin ((first :: rest).map PriceRow.price) ≤ p
                  ∧ p ≤ listMax ((first :: rest).map PriceRow.price))
            ∧ listMin ((first :: rest).map PriceRow.price)
                ∈ (first :: rest).map PriceRow.price
            ∧ listMax ((first :: rest).map PriceRow.price)
                ∈ (first :: rest).map PriceRow.price
            ∧ (first :: rest).Pairwise (fun a b => strLe a.doc_date b.doc_date = true)
            ∧ rest.getLastD first = (first :: rest).getLast (List.cons_ne_nil first rest)) := by
  constructor
  · intro h
    simp [get_price_dynamics, h]
  · intro first rest h h0
    refine ⟨?_, ?_, ?_, ?_, ?_, ?_⟩
    · simp [get_price_dynamics, h, h0]
    · intro p hp
      have hp' : p ∈ first.price :: rest.map PriceRow.price := by simpa using hp
      exact ⟨foldl_min_le (rest.map PriceRow.price) first.price p hp',
             le_foldl_max (rest.map PriceRow.price) first.price p hp'⟩
    · exact foldl_min_mem (rest.map PriceRow.price) first.price
    · exact foldl_max_mem (rest.map PriceRow.price) first.price
    · have hs := priceDynRows_sorted st nom
      rwa [h] at hs
    · exact getLastD_eq_getLast first rest

/-- Witness for C7 (amended) at a concrete two-row store, supplied unsorted. -/
theorem c7_price_dynamics_witness :
    get_price_dynamics c7Store "Мука"
      = .ok ⟨"price_dynamics", some "Мука",
          projPrice c7Row1 :: [projPrice c7Row2], none,
          some ⟨listMin ((projPrice c7Row1 :: [projPrice c7Row2]).map PriceRow.price),
                listMax ((projPrice c7Row1 :: [projPrice c7Row2]).map PriceRow.price),
                ((projPrice c7Row1 :: [projPrice c7Row2]).map PriceRow.price).sum
                  / (((projPrice c7Row1 :: [projPrice c7Row2]).map PriceRow.price).length : ℚ),
                (projPrice c7Row1).price,
                ([projPrice c7Row2].getLastD (projPrice c7Row1)).price,
                round1 ((([projPrice c7Row2].getLastD (projPrice c7Row1)).price
                    - (projPrice c7Row1).price) / (projPrice c7Row1).price * 100)⟩⟩ :=
  ((c7_price_dynamics c7Store "Мука").2 (projPrice c7Row1) [projPrice c7Row2]
    (by decide) (by decide)).1

/-- C10 counterexample: the division's error branch is reachable — a store
holding one matching zero-price row drives `get_price_dynamics` into it. -/
theorem c10_error_branch_reachable :
    get_price_dynamics c10Store "Ваниль" = .error "DivisionByZero: division by zero" :=
  rfl

/-- C10 (amended): nothing treats the first price as nonzero —
`get_price_dynamics` fails exactly when at least one record matches and the
first chronological matching row's price is zero. -/
theorem c10_division_guard (st : Store) (nom : String) :
    (∃ e, get_price_dynamics st nom = .error e)
      ↔ (∃ first rest, priceDynRows st nom = first :: rest ∧ first.price = 0) := by
  cases h : priceDynRows st nom with
  | nil =>
    refine iff_of_false ?_ ?_
    · rintro ⟨e, he⟩
      simp [get_price_dynamics, h] at he
    · rintro ⟨first, rest, heq, _⟩
      exact List.noConfusion heq
  | cons a l =>
    by_cases h0 : a.price = 0
    · refine iff_of_true ⟨"DivisionByZero: division by zero", ?_⟩ ⟨a, l, rfl, h0⟩
      simp [get_price_dynamics, h, h0]
    · refine iff_of_false ?_ ?_
      · rintro ⟨e, he⟩
        simp [get_price_dynamics, h, h0] at he
      · rintro ⟨first, rest, heq, hz⟩
        injection heq with e1 _
        exact h0 (by rw [e1]; exact hz)

/-- C8: both leaderboard operations group the matching realization rows by
entity name, aggregate the monetary total (sum of total-with-tax) and the
secondary per-entity aggregate (distinct-document count for clients, quantity
total for products), and return at most `limit` rows ordered by the monetary
total in descending order. -/
theorem c8_leaderboards :
    (∀ (st : Store) (f t : Option String) (L : Int),
        (get_top_clients st f t L).data.length ≤ L.toNat)
      ∧ (∀ (st : Store) (f t : Option String) (L : Int),
          (get_top_clients st f t L).data.Pairwise
            (fun a b => b.total_sum ≤ a.total_sum))
      ∧ (∀ (st : Store) (f t : Option String) (L : Int) (g : TopClientRow),
          g ∈ (get_top_clients st f t L).data →
          g.total_sum = (((topMatching st f t).filter
              (fun r => decide (r.client_name = g.client_name))).map
              SalesRow.sum_with_vat).sum
            ∧ g.orders_count = (((topMatching st f t).filter
                (fun r => decide (r.client_name = g.client_name))).map
                SalesRow.doc_number).dedup.length)
      ∧ (∀ (st : Store) (f t : Option String) (L : Int),
          (get_top_products st f t L).data.length ≤ L.toNat)
      ∧ (∀ (st : Store) (f t : Option String) (L : Int),
          (get_top_products st f t L).data.Pairwise
            (fun a b => b.total_sum ≤ a.total_sum))
      ∧ (∀ (st : Store) (f t : Option String) (L : Int) (g : TopProductRow),
          g ∈ (get_top_products st f t L).data →
          g.total_qty = (((topMatching st f t).filter
              (fun r => decide (r.nomenclature_name = g.nomenclature_name))).map
              SalesRow.quantity).sum
            ∧ g.total_sum = (((topMatching st f t).filter
                (fun r => decide (r.nomenclature_name = g.nomenclature_name))).map
                SalesRow.sum_with_vat).sum) := by
  refine ⟨?_, ?_, ?_, ?_, ?_, ?_⟩
  · intro st f t L
    cases hf : st.failing with
    | true => simp [get_top_clients, runQuery, hf]
    | false =>
      simp only [get_top_clients, runQuery, hf, Bool.false_eq_true, if_false]
      exact takeLimit_length_le _ _
  · intro st f t L
    cases hf : st.failing with
    | true => simp [get_top_clients, runQuery, hf]
    | false =>
      simp only [get_top_clients, runQuery, hf, Bool.false_eq_true, if_false]
      exact List.Pairwise.sublist (takeLimit_sublist _ _)
        (List.sorted_insertionSort (ordDesc TopClientRow.total_sum) _)
  · intro st f t L g hg
    cases hf : st.failing with
    | true => simp [get_top_clients, runQuery, hf] at hg
    | false =>
      simp only [get_top_clients, runQuery, hf, Bool.false_eq_true, if_false] at hg
      have h1 := takeLimit_subset _ _ hg
      have h2 := (List.mem_insertionSort _).mp h1
      obtain ⟨n, _, rfl⟩ := List.mem_map.mp h2
      exact ⟨rfl, rfl⟩
  · intro st f t L
    cases hf : st.failing with
    | true => simp [get_top_products, runQuery, hf]
    | false =>
      simp only [get_top_products, runQuery, hf, Bool.false_eq_true, if_false]
      exact takeLimit_length_le _ _
  · intro st f t L
    cases hf : st.failing with
    | true => simp [get_top_products, runQuery, hf]
    | false =>
      simp only [get_top_products, runQuery, hf, Bool.false_eq_true, if_false]
      exact List.Pairwise.sublist (takeLimit_sublist _ _)
        (List.sorted_insertionSort (ordDesc TopProductRow.total_sum) _)
  · intro st f t L g hg
    cases hf : st.failing with
    | true => simp [get_top_products, runQuery, hf] at hg
    | false =>
      simp only [get_top_products, runQuery, hf, Bool.false_eq_true, if_false] at hg
      have h1 := takeLimit_subset _ _ hg
      have h2 := (List.mem_insertionSort _).mp h1
      obtain ⟨n, _, rfl⟩ := List.mem_map.mp h2
      exact ⟨rfl, rfl⟩

/-- Witness for C8 at a one-sale store: the returned leaderboard entry's
total and count equal the aggregates over its group. -/
theorem c8_leaderboards_witness :
    (clientGroup (topMatching c8Store none none) "A").total_sum
        = (((topMatching c8Store none none).filter
            (fun r => decide (r.client_name
              = (clientGroup (topMatching c8Store none none) "A").client_name))).map
            SalesRow.sum_with_vat).sum
      ∧ (clientGroup (topMatching c8Store none none) "A").orders_count
        = (((topMatching c8Store none none).filter
            (fun r => decide (r.client_name
              = (clientGroup (topMatching c8Store none none) "A").client_name))).map
            SalesRow.doc_number).dedup.length :=
  c8_leaderboards.2.2.1 c8Store none none 10
    (clientGroup (topMatching c8Store none none) "A")
    (List.mem_cons_self _ _)

/-- C9 counterexample: no implicit upper bound exists — `get_price_dynamics`
accepts no limit parameter and returns every matching record, and even the
limited operations return as many rows as the model-supplied limit asks for,
so no fixed bound caps the result count. -/
theorem c9_no_implicit_bound :
    (¬ ∃ B : Nat, ∀ st : Store, priceDataLen (get_price_dynamics st "x") ≤ B)
      ∧ (¬ ∃ B : Nat, ∀ (st : Store) (L : Int),
          (search_purchases st none none none none L).data.length ≤ B) := by
  constructor
  · rintro ⟨B, hB⟩
    have h := hB (c9Store (B + 1))
    rw [c9_data_len] at h
    omega
  · rintro ⟨B, hB⟩
    have h := hB (c9Store (B + 1)) ((B + 1 : Nat) : Int)
    rw [c9_search_len] at h
    omega

/-- C9 (amended): each of the six search/leaderboard operations bounds its
result count by the model-supplied limit, and an invocation that omits the
limit binds the operation's own default (20, 20, 30/30, 10); the supplied
limit itself is the only bound, and `get_price_dynamics` takes no limit. -/
theorem c9_limit_defaults_and_bounds :
    (∀ (st : Store) (q s f t : Option String) (L : Int),
        (search_purchases st q s f t L).data.length ≤ L.toNat)
      ∧ (∀ (st : Store) (q c d f t : Option String) (L : Int),
          (search_sales st q c d f t L).data.length ≤ L.toNat)
      ∧ (∀ (st : Store) (q : Option String) (L : Int),
          (search_nomenclature st q L).data.length ≤ L.toNat)
      ∧ (∀ (st : Store) (q : Option String) (L : Int),
          (search_clients st q L).data.length ≤ L.toNat)
      ∧ (∀ (st : Store) (f t : Option String) (L : Int),
          (get_top_clients st f t L).data.length ≤ L.toNat)
      ∧ (∀ (st : Store) (f t : Option String) (L : Int),
          (get_top_products st f t L).data.length ≤ L.toNat)
      ∧ bindPurchaseArgs [] = .ok ⟨none, none, none, none, 20⟩
      ∧ bindSalesArgs [] = .ok ⟨none, none, none, none, none, 20⟩
      ∧ bindQueryArgs [] = .ok ⟨none, 30⟩
      ∧ bindTopArgs [] = .ok ⟨none, none, 10⟩ := by
  refine ⟨?_, ?_, ?_, ?_, ?_, ?_, rfl, rfl, rfl, rfl⟩
  · intro st q s f t L
    cases hf : st.failing with
    | true => simp [search_purchases, runQuery, hf]
    | false =>
      simp only [search_purchases, runQuery, hf, Bool.false_eq_true, if_false]
      exact takeLimit_length_le _ _
  · intro st q c d f t L
    cases hf : st.failing with
    | true => simp [search_sales, runQuery, hf]
    | false =>
      simp only [search_sales, runQuery, hf, Bool.false_eq_true, if_false]
      exact takeLimit_length_le _ _
  · intro st q L
    cases hf : st.failing with
    | true => simp [search_nomenclature, runQuery, hf]
    | false =>
      simp only [search_nomenclature, runQuery, hf, Bool.false_eq_true, if_false]
      exact takeLimit_length_le _ _
  · intro st q L
    cases hf : st.failing with
    | true => simp [search_clients, runQuery, hf]
    | false =>
      simp only [search_clients, runQuery, hf, Bool.false_eq_true, if_false]
      exact takeLimit_length_le _ _
  · intro st f t L
    cases hf : st.failing with
    | true => simp [get_top_clients, runQuery, hf]
    | false =>
      simp only [get_top_clients, runQuery, hf, Bool.false_eq_true, if_false]
      exact takeLimit_length_le _ _
  · intro st f t L
    cases hf : st.failing with
    | true => simp [get_top_products, runQuery, hf]
    | false =>
      simp only [get_top_products, runQuery, hf, Bool.false_eq_true, if_false]
      exact takeLimit_length_le _ _

end RagAgent
